import Mathlib

/-!
Shallow embedding of the `sumo_gym` repository (a Gymnasium wrapper around
the SUMO traffic simulator driven through the `traci` client), together
with theorems settling the specification claims about it.

Modelling conventions, fixed once for the whole file:

* Python floats are modelled by `ℚ` (the code does no floating-point
  specific reasoning; every constant appearing in the source is a decimal
  literal).
* A `traci` context-subscription result (`getContextSubscriptionResults`)
  is an association list `List (String × VehRecord)` from vehicle id to
  its subscribed variables.  The per-vehicle value dictionary preserves
  the order in which the variables were subscribed
  (`subscribeContext(..., [tc.VAR_SPEED, tc.VAR_POSITION])` in
  `roundabout.py` line 67, `[tc.VAR_SPEED, tc.VAR_ANGLE, tc.VAR_POSITION]`
  in the legacy scripts), which is how the `traci` client populates the
  result dictionary.
* A numpy array obtained from a traci value is modelled as `List ℚ`:
  a scalar (the speed) becomes a one-element list, a 2-D position a
  two-element list.  Indexing `arr[0]` is modelled by `List.getD _ 0 _`.
* `np.linalg.norm` is `Real.sqrt` of the sum of squares of the entries;
  `np.linspace` is the exact arithmetic progression numpy documents.
* Calls into the simulator are recorded as `TraciCall` values so that
  claims about the order of remote calls can be stated.
-/

/-- `traci.constants.VAR_SPEED` (0x40). -/
def VAR_SPEED : Nat := 64

/-- `traci.constants.VAR_POSITION` (0x42). -/
def VAR_POSITION : Nat := 66

/-- `traci.constants.VAR_ANGLE` (0x43). -/
def VAR_ANGLE : Nat := 67

/-- The variables of one vehicle delivered by the context subscription of
`RoundaboutEnv` (speed is a scalar, position a 2-D point). -/
structure VehRecord where
  speed : ℚ
  posX : ℚ
  posY : ℚ
  deriving DecidableEq, Inhabited

/-- The per-vehicle result dictionary of `getContextSubscriptionResults`
for `RoundaboutEnv`: the keys appear in the subscription order
`[tc.VAR_SPEED, tc.VAR_POSITION]` of `roundabout.py` line 67. -/
def recordEntries (r : VehRecord) : List (Nat × List ℚ) :=
  [(VAR_SPEED, [r.speed]), (VAR_POSITION, [r.posX, r.posY])]

/-- Reading one subscribed variable of a vehicle (`state_dict[vehicle][var]`). -/
def valueAt (r : VehRecord) (varId : Nat) : List ℚ :=
  ((recordEntries r).lookup varId).getD []

/-- `self.vars = list(self.state_dict["ego"].keys())` (base.py line 204). -/
def varsOfStateDict (sd : List (String × VehRecord)) : List Nat :=
  (recordEntries ((sd.lookup "ego").getD default)).map Prod.fst

/-- `np.linspace(lo, hi, n)`: `n` evenly spaced samples from `lo` to `hi`
(inclusive); for `n ≥ 2` the step is `(hi - lo)/(n - 1)`. -/
def npLinspace (lo hi : ℚ) (n : ℕ) : List ℚ :=
  (List.range n).map
    (fun (i : ℕ) => if n ≤ 1 then lo else lo + (i : ℚ) * (hi - lo) / ((n : ℚ) - 1))

/-- Sum of squares of the entries of a vector. -/
def npNormSq (l : List ℚ) : ℚ := (l.map (fun x => x * x)).sum

/-- `np.linalg.norm`: the Euclidean norm of a vector. -/
noncomputable def npNorm (l : List ℚ) : ℝ := Real.sqrt ((npNormSq l : ℚ) : ℝ)

/-- Elementwise difference of two equal-length numpy arrays. -/
def listSub (a b : List ℚ) : List ℚ := List.zipWith (fun x y => x - y) a b

/-- The remote calls the environment issues through the `traci` client. -/
inductive TraciCall where
  | close
  | start (cmd : List String)
  | subscribeContext
  | setSpeedMode
  | simulationStep
  | saveState
  | getSubscription
  | setSpeed (v : ℚ)
  deriving DecidableEq

/-- The state of a `RoundaboutEnv` instance (the concrete subclass of
`BaseSumoGymEnv`; the base class is abstract).  Attributes that Python
only creates at the first `reset` (`_step_count`, `state_dict`, `vars`,
the two flags, `observation`) are carried with initial defaults. -/
structure REnvState where
  numActions : ℕ
  maxSteps : ℕ
  maxEgoSpeed : ℚ
  sumoCmd : List String
  resetCounter : ℕ
  stepCount : ℕ
  egoCollided : Bool
  egoArrived : Bool
  stateDict : List (String × VehRecord)
  vars : List Nat
  observation : List (String × List ℚ)

/-- What the simulator hands back during one `reset` or `step` call: the
context-subscription results and `getCollidingVehiclesIDList()`. -/
structure SimInput where
  newStateDict : List (String × VehRecord)
  collidingIDs : List String

/-- `RoundaboutEnv._get_obs` (roundabout.py lines 109-123): for each
vehicle in the subscription results, store the value of `self.vars[0]`
under `vehicle + "_pos"` and the value of `self.vars[1]` under
`vehicle + "_speed"`. -/
def getObs (vars : List Nat) (sd : List (String × VehRecord)) : List (String × List ℚ) :=
  sd.flatMap (fun p =>
    [(p.1 ++ "_pos", valueAt p.2 (vars.getD 0 0)),
     (p.1 ++ "_speed", valueAt p.2 (vars.getD 1 0))])

/-- The info dictionary of `RoundaboutEnv._get_info`. -/
structure InfoOut where
  egoT0Dist : ℝ
  egoT1Dist : ℝ
  egoCollided : Bool

/-- `RoundaboutEnv._get_info` (roundabout.py lines 125-140):
`pos_key = self.vars[0]`, and the two "distances" are
`np.linalg.norm(state_dict[a][pos_key] - state_dict[b][pos_key])`. -/
noncomputable def getInfo (egoCollided : Bool) (vars : List Nat)
    (sd : List (String × VehRecord)) : InfoOut :=
  let posKey := vars.getD 0 0
  let egoVal := valueAt ((sd.lookup "ego").getD default) posKey
  let t0Val := valueAt ((sd.lookup "t_0").getD default) posKey
  let t1Val := valueAt ((sd.lookup "t_1").getD default) posKey
  { egoT0Dist := npNorm (listSub egoVal t0Val)
    egoT1Dist := npNorm (listSub egoVal t1Val)
    egoCollided := egoCollided }

/-- `destination_x` of `RoundaboutEnv._reward` (roundabout.py line 155). -/
def destinationX : ℚ := -52

/-- `self.observation["ego_pos"][0]` as read by `_reward`. -/
def obsEgoPosFirst (obs : List (String × List ℚ)) : ℚ :=
  ((obs.lookup "ego_pos").getD []).getD 0 0

/-- The speed `RoundaboutEnv._act` commands:
`np.linspace(0.0, self._max_ego_speed, self._num_actions)[action]`
(roundabout.py lines 142-145). -/
def actCmd (s : REnvState) (a : ℕ) : ℚ :=
  (npLinspace 0 s.maxEgoSpeed s.numActions).getD a 0

/-- The remote call issued by `RoundaboutEnv._act`. -/
def actCalls (s : REnvState) (a : ℕ) : List TraciCall :=
  [TraciCall.setSpeed (actCmd s a)]

/-- What one `step` call returns (observation, reward, terminated,
truncated, info). -/
structure StepOut where
  obs : List (String × List ℚ)
  reward : ℚ
  terminated : Bool
  truncated : Bool
  info : InfoOut

/-- `BaseSumoGymEnv.step` specialised to `RoundaboutEnv`
(base.py lines 214-255 with the roundabout hooks), as a state transformer
driven by the simulator reply `inp`.  It follows the source order:
advance the simulation, push the speed command, pull the subscription,
increment the step counter, set `truncated`, build observation and info
(info still sees the previous `_ego_collided`), then `_reward`
(roundabout.py lines 152-170, which updates the two flags) and finally
`_terminate` (lines 147-150). -/
noncomputable def stepEnv (a : ℕ) (inp : SimInput) (s : REnvState) : REnvState × StepOut :=
  let sd := inp.newStateDict
  let stepCount := s.stepCount + 1
  let truncated := decide (s.maxSteps ≤ stepCount)
  let observation := getObs s.vars sd
  let info := getInfo s.egoCollided s.vars sd
  let egoCollided := decide ("ego" ∈ inp.collidingIDs)
  let rewardIfCollided : ℚ := if egoCollided then -1 else 0
  let arrivedNow := decide (obsEgoPosFirst observation < destinationX)
  let reward : ℚ := if arrivedNow then 1 else rewardIfCollided
  let egoArrived := if arrivedNow then true else s.egoArrived
  let terminated := egoCollided || egoArrived
  ({ s with
      stateDict := sd
      stepCount := stepCount
      egoCollided := egoCollided
      egoArrived := egoArrived
      observation := observation },
   { obs := observation
     reward := reward
     terminated := terminated
     truncated := truncated
     info := info })

/-- The remote calls of `BaseSumoGymEnv.step`, in source order
(base.py lines 236-238): `traci.simulationStep()`, then
`self._act(action)` which is `traci.vehicle.setSpeed(...)`, then
`traci.vehicle.getContextSubscriptionResults("ego")`. -/
def stepCalls (s : REnvState) (a : ℕ) : List TraciCall :=
  [TraciCall.simulationStep] ++ actCalls s a ++ [TraciCall.getSubscription]

/-- `BaseSumoGymEnv.reset` (base.py lines 159-212) as a state transformer:
zero the step counter, bump the reset counter, store the pulled
subscription results, derive `self.vars`, clear both episode flags, and
return observation and info. -/
noncomputable def resetEnv (inp : SimInput) (s : REnvState) :
    REnvState × (List (String × List ℚ)) × InfoOut :=
  let sd := inp.newStateDict
  let vars := varsOfStateDict sd
  let observation := getObs vars sd
  ({ s with
      stepCount := 0
      resetCounter := s.resetCounter + 1
      stateDict := sd
      vars := vars
      egoCollided := false
      egoArrived := false
      observation := observation },
   observation,
   getInfo false vars sd)

/-- The remote calls of `BaseSumoGymEnv.reset`, in source order
(base.py lines 179-203): `self.close()` (i.e. `traci.close()`) only when
`self._reset_counter > 0`, then `traci.start`, the context subscription,
`setSpeedMode`, one `simulationStep`, `saveState`, and the subscription
pull. -/
def resetCalls (s : REnvState) : List TraciCall :=
  (if 0 < s.resetCounter then [TraciCall.close] else []) ++
    [TraciCall.start s.sumoCmd, TraciCall.subscribeContext, TraciCall.setSpeedMode,
     TraciCall.simulationStep, TraciCall.saveState, TraciCall.getSubscription]

/-- Constructor arguments of `RoundaboutEnv.__init__` with their defaults
(roundabout.py lines 19-41). -/
structure InitParams where
  numActions : ℕ
  maxSteps : ℕ
  configPath : String
  sumoOptions : List String :=
    ["--step-length", "0.1", "--collision.check-junctions", "true",
     "--collision.action", "warn", "--emergencydecel.warning-threshold", "1000.1"]
  maxEgoSpeed : ℚ := 10
  sumoGuiBinary : String := "/usr/bin/sumo-gui"
  sumoBinary : String := "/usr/bin/sumo"
  sumoInitStateSavePath : String := "out/sumoInitState.xml"
  isGuiRendered : Bool := false

/-- The exceptions construction can raise: the `NameError` of the
`SUMO_HOME` check (base.py lines 74-77), and the `AssertionError` from
gymnasium's `spaces.Discrete(self._num_actions)` (base.py line 92),
which asserts a positive action count. -/
inductive InitError where
  | nameError (msg : String)
  | assertionError (msg : String)
  deriving DecidableEq

/-- What running `RoundaboutEnv.__init__` leaves behind: which instance
attributes were assigned before the outcome was decided, and the
outcome.  The subclass assigns `self._max_ego_speed`
(roundabout.py line 68) BEFORE calling `super().__init__`, so that
field is assigned even when the base-class `SUMO_HOME` check raises;
the base-class fields (base.py lines 79-90) are assigned only after the
check passes; the SUMO command line (lines 95-109) is built last. -/
structure InitTrace where
  maxEgoSpeedAssigned : Option ℚ
  baseFieldsAssigned : Bool
  sumoCmdBuilt : Option (List String)
  outcome : Except InitError REnvState

/-- The SUMO command line assembled by the constructor
(base.py lines 95-109). -/
def sumoCmdOf (p : InitParams) : List String :=
  if p.isGuiRendered then
    [p.sumoGuiBinary, "-c", p.configPath] ++ p.sumoOptions ++
      ["--start", "--quit-on-end"]
  else
    [p.sumoBinary, "-c", p.configPath, "--no-step-log", "true"] ++ p.sumoOptions

/-- `RoundaboutEnv.__init__` (roundabout.py lines 19-81), the only
concrete environment, running `BaseSumoGymEnv.__init__`
(base.py lines 19-109).  Execution order: `self._max_ego_speed` is
assigned first (roundabout.py line 68); then the base constructor
checks `"SUMO_HOME" in os.environ` and raises
`NameError("[sumo_gym] Please declare environment variable 'SUMO_HOME'")`
when it is absent (base.py lines 71-77); then it assigns its fields
with `_reset_counter = 0` (lines 79-90); then
`spaces.Discrete(self._num_actions)` asserts `0 < num_actions`
(line 92, gymnasium raises `AssertionError` otherwise); then the
observation space and the SUMO command line are built (lines 93-109). -/
def initEnv (osEnv : List (String × String)) (p : InitParams) : InitTrace :=
  if (osEnv.lookup "SUMO_HOME").isSome then
    if 0 < p.numActions then
      { maxEgoSpeedAssigned := some p.maxEgoSpeed
        baseFieldsAssigned := true
        sumoCmdBuilt := some (sumoCmdOf p)
        outcome := Except.ok
          { numActions := p.numActions
            maxSteps := p.maxSteps
            maxEgoSpeed := p.maxEgoSpeed
            sumoCmd := sumoCmdOf p
            resetCounter := 0
            stepCount := 0
            egoCollided := false
            egoArrived := false
            stateDict := []
            vars := []
            observation := [] } }
    else
      { maxEgoSpeedAssigned := some p.maxEgoSpeed
        baseFieldsAssigned := true
        sumoCmdBuilt := none
        outcome := Except.error
          (InitError.assertionError "n (counts) have to be positive") }
  else
    { maxEgoSpeedAssigned := some p.maxEgoSpeed
      baseFieldsAssigned := false
      sumoCmdBuilt := none
      outcome := Except.error
        (InitError.nameError "[sumo_gym] Please declare environment variable SUMO_HOME") }

/-- Folding a list of (action, simulator reply) pairs through `stepEnv`:
the environment state after an episode fragment. -/
noncomputable def runSteps (s : REnvState) (l : List (ℕ × SimInput)) : REnvState :=
  l.foldl (fun st p => (stepEnv p.1 p.2 st).1) s

/-- Whether the observation assembled from one simulator reply satisfies
the arrival test `observation["ego_pos"][0] < destination_x` of
`_reward`. -/
def arrivalObserved (vars : List Nat) (inp : SimInput) : Bool :=
  decide (obsEgoPosFirst (getObs vars inp.newStateDict) < destinationX)

/-- A simulator reply on which the real calls would succeed: the three
vehicles the roundabout code indexes are present. -/
def hasAllVehicles (inp : SimInput) : Prop :=
  (inp.newStateDict.lookup "ego").isSome ∧ (inp.newStateDict.lookup "t_0").isSome ∧
    (inp.newStateDict.lookup "t_1").isSome

instance (inp : SimInput) : Decidable (hasAllVehicles inp) := by
  unfold hasAllVehicles; infer_instance

/-- A minimal model of the SUMO simulator itself, rich enough to express
when a pushed speed command becomes visible: `traci.vehicle.setSpeed`
records a command, and the ego vehicle moves at the commanded speed from
the NEXT `traci.simulationStep()` on (SUMO applies vehicle commands at
the following simulation step). -/
structure MiniSim where
  egoSpeed : ℚ
  cmd : Option ℚ

/-- `traci.simulationStep()` against the minimal simulator. -/
def simStepSim (w : MiniSim) : MiniSim :=
  { egoSpeed := w.cmd.getD w.egoSpeed, cmd := w.cmd }

/-- `traci.vehicle.setSpeed("ego", v)` against the minimal simulator. -/
def setSpeedSim (v : ℚ) (w : MiniSim) : MiniSim :=
  { w with cmd := some v }

/-- `traci.vehicle.getContextSubscriptionResults("ego")` against the
minimal simulator: the ego vehicle with its current speed. -/
def subResultsSim (w : MiniSim) : List (String × VehRecord) :=
  [("ego", { speed := w.egoSpeed, posX := 0, posY := 0 })]

/-- One `BaseSumoGymEnv.step` call run closed-loop against the minimal
simulator, issuing the remote calls in source order (base.py lines
236-238): `traci.simulationStep()`, then `self._act(action)` (the
`setSpeed` push), then the subscription pull that feeds `stepEnv`. -/
noncomputable def stepWithSim (a : ℕ) (s : REnvState) (w : MiniSim) :
    (REnvState × StepOut) × MiniSim :=
  let w1 := simStepSim w
  let w2 := setSpeedSim (actCmd s a) w1
  let inp : SimInput := { newStateDict := subResultsSim w2, collidingIDs := [] }
  (stepEnv a inp s, w2)

/-!  The legacy standalone `SumoEnv` (sumo_env.py).  Its context
subscription is `[tc.VAR_SPEED, tc.VAR_ANGLE, tc.VAR_POSITION]`
(main_sumo.py line 11), so each per-vehicle record concatenates to the
4 scalars (speed, angle, x, y), and `self.vars` — set by
`addContextVars(list(sub["ego"].keys()))` (main_sumo.py lines 13-16) —
is `[VAR_SPEED, VAR_ANGLE, VAR_POSITION]`. -/

/-- One vehicle of the legacy `SumoEnv` subscription. -/
structure SumoRec where
  speed : ℚ
  angle : ℚ
  posX : ℚ
  posY : ℚ
  deriving DecidableEq, Inhabited

/-- The per-vehicle result dictionary, keys in subscription order. -/
def sumoEntries (r : SumoRec) : List (Nat × List ℚ) :=
  [(VAR_SPEED, [r.speed]), (VAR_ANGLE, [r.angle]), (VAR_POSITION, [r.posX, r.posY])]

/-- Reading one subscribed variable of a legacy record. -/
def sumoValueAt (r : SumoRec) (varId : Nat) : List ℚ :=
  ((sumoEntries r).lookup varId).getD []

/-- `self.vars` of the legacy environment (main_sumo.py lines 13-16). -/
def sumoVars : List Nat := [VAR_SPEED, VAR_ANGLE, VAR_POSITION]

/-- `np.concatenate([v_s_dict[key] for key in v_s_dict.keys()], axis=None)`
(sumo_env.py lines 55-56): one record flattened in key order. -/
def flattenRec (r : SumoRec) : List ℚ :=
  [r.speed, r.angle, r.posX, r.posY]

/-- The sort key of `construct_state`:
`la.norm(np.array(statedict["ego"][self.vars[0]]) - np.array(statedict[veh][self.vars[0]]))`
(sumo_env.py lines 45-48).  `self.vars[0]` is `VAR_SPEED`, a scalar, so
the norm is `|ego.speed - r.speed|`.  We carry the SQUARE of that norm,
`npNormSq` of the same difference vector, so that the comparisons the
sort makes stay inside `ℚ`; `npNorm_le_npNorm_iff` below shows comparing
squared norms orders exactly as comparing the norms themselves, so the
sorted order is unchanged. -/
def distSqVal (ego r : SumoRec) : ℚ :=
  npNormSq (listSub (sumoValueAt ego (sumoVars.getD 0 0)) (sumoValueAt r (sumoVars.getD 0 0)))

/-- Ordering of `(vehicle id, sort key)` pairs by key, the order used by
`sorted(distances.items(), key=lambda item: item[1])` (sumo_env.py
lines 49-51). -/
def distLE (a b : String × ℚ) : Prop := a.2 ≤ b.2

instance : DecidableRel distLE := fun a b => inferInstanceAs (Decidable (a.2 ≤ b.2))

instance : IsTotal (String × ℚ) distLE := ⟨fun a b => le_total a.2 b.2⟩

instance : IsTrans (String × ℚ) distLE := ⟨fun _ _ _ h1 h2 => le_trans h1 h2⟩

/-- `dummy_state` (sumo_env.py line 70). -/
def dummyState : List ℚ := [0, 0, 10000, 10000]

/-- `SumoEnv.construct_state` (sumo_env.py lines 37-77).  `context_len`
is `len(statedict) - 1`.  When `context_len > n_veh` the vehicles are
sorted by distance-to-ego of their `vars[0]` value (Python's `sorted` is
stable; `List.insertionSort` with a total preorder is the same stable
sort) and the records of the first `n_veh + 1` ids — fetched back from
`statedict` by id — are concatenated.  Otherwise all records are
concatenated in dictionary order and, when `context_len < n_veh`,
`n_veh - context_len` copies of `dummy_state` are appended (the code
builds one copy and appends `n_dummy - 1` more).  `statedict["ego"]`
would raise `KeyError` when the ego vehicle is absent, which the `none`
branch models. -/
def construct_state (n_veh : ℕ) (sd : List (String × SumoRec)) : Option (List ℚ) :=
  let contextLen := sd.length - 1
  if n_veh < contextLen then
    match sd.lookup "ego" with
    | none => none
    | some ego =>
      let distances := sd.map (fun p => (p.1, distSqVal ego p.2))
      let sortedDistances := List.insertionSort distLE distances
      let kept := (sortedDistances.map Prod.fst).take (n_veh + 1)
      some (kept.flatMap (fun v => flattenRec ((sd.lookup v).getD default)))
  else
    let s := sd.flatMap (fun p => flattenRec p.2)
    if contextLen < n_veh then
      some (s ++ (List.replicate (n_veh - contextLen) dummyState).flatten)
    else
      some s

/-!  Concrete data used to instantiate theorems with hypotheses. -/

/-- A nominal three-vehicle subscription result. -/
def exStateDict : List (String × VehRecord) :=
  [("ego", ⟨5, 0, 0⟩), ("t_0", ⟨5, 3, 4⟩), ("t_1", ⟨2, 1, 1⟩)]

/-- A subscription result containing only the ego vehicle. -/
def exSoloDict : List (String × VehRecord) := [("ego", ⟨5, 0, 0⟩)]

/-- A subscription result with a fourth vehicle inside the awareness
radius besides the three the claim names. -/
def exQuadDict : List (String × VehRecord) :=
  [("ego", ⟨5, 0, 0⟩), ("t_0", ⟨5, 3, 4⟩), ("t_1", ⟨2, 1, 1⟩), ("t_2", ⟨1, 2, 3⟩)]

/-- A simulator reply carrying `exQuadDict`, no collision. -/
def exQuadInput : SimInput := ⟨exQuadDict, []⟩

/-- A simulator reply with no collision. -/
def exInput : SimInput := ⟨exStateDict, []⟩

/-- A simulator reply in which the ego vehicle is colliding. -/
def exInputColl : SimInput := ⟨exStateDict, ["ego"]⟩

/-- A small environment state (2 actions, 3 max steps, 10 m/s). -/
def exState : REnvState :=
  ⟨2, 3, 10, [], 0, 0, false, false, [], [], []⟩

/-- An `os.environ` with `SUMO_HOME` set. -/
def exOsEnv : List (String × String) := [("SUMO_HOME", "/opt/sumo")]

/-- Concrete constructor arguments. -/
def exParams : InitParams :=
  { numActions := 2, maxSteps := 3, configPath := "roundabout.sumocfg" }

/-- The minimal simulator at rest. -/
def exMiniSim : MiniSim := ⟨0, none⟩

/-- Legacy counterexample vehicles: `a` has the ego's speed but is far
away; `b` has a different speed but is spatially nearest. -/
def cexEgo : SumoRec := ⟨10, 0, 0, 0⟩

/-- See `cexEgo`. -/
def cexA : SumoRec := ⟨10, 0, 100, 100⟩

/-- See `cexEgo`. -/
def cexB : SumoRec := ⟨0, 0, 1, 0⟩

/-- A legacy subscription dictionary with two non-ego vehicles. -/
def cexSd : List (String × SumoRec) := [("ego", cexEgo), ("a", cexA), ("b", cexB)]

/-!  Theorems.  First the shared library lemmas, then one theorem per
specification claim (with its witness or counterexample where needed). -/

/-- The key order of every `VehRecord` dictionary is the subscription
order `[VAR_SPEED, VAR_POSITION]`, whatever the ego record holds. -/
theorem varsOfStateDict_eq (sd : List (String × VehRecord)) :
    varsOfStateDict sd = [VAR_SPEED, VAR_POSITION] := rfl

theorem npNormSq_nonneg (l : List ℚ) : 0 ≤ npNormSq l := by
  unfold npNormSq
  induction l with
  | nil => simp
  | cons x xs ih => simpa using add_nonneg (mul_self_nonneg x) ih

/-- On a one-element vector (a numpy scalar) the norm is the absolute value. -/
theorem npNorm_singleton (x : ℚ) : npNorm [x] = |(x : ℝ)| := by
  have h : npNormSq [x] = x * x := by simp [npNormSq]
  rw [npNorm, h]
  push_cast
  rw [show ((x : ℝ) * x : ℝ) = (x : ℝ) ^ 2 by ring]
  exact Real.sqrt_sq_eq_abs (x : ℝ)

/-- Comparing Euclidean norms is the same as comparing their squares, so
sorting by `npNormSq` sorts exactly by `npNorm`. -/
theorem npNorm_le_npNorm_iff (l m : List ℚ) :
    npNorm l ≤ npNorm m ↔ npNormSq l ≤ npNormSq m := by
  unfold npNorm
  rw [Real.sqrt_le_sqrt_iff (by exact_mod_cast npNormSq_nonneg m)]
  exact_mod_cast Iff.rfl

/-- A successful association-list lookup exhibits a member. -/
theorem lookup_mem {β : Type} {l : List (String × β)} {k : String} {v : β}
    (h : l.lookup k = some v) : (k, v) ∈ l := by
  induction l with
  | nil => simp [List.lookup] at h
  | cons p t ih =>
    rcases p with ⟨k2, v2⟩
    rw [List.lookup] at h
    split at h
    · next heq =>
      cases h
      have hk : k = k2 := by simpa using heq
      rw [hk]
      exact List.mem_cons_self _ _
    · exact List.mem_cons_of_mem _ (ih h)

/-- In an association list with distinct keys, equal keys force equal
entries. -/
theorem eq_of_mem_of_nodup_keys {β : Type} {l : List (String × β)}
    (hnd : (l.map Prod.fst).Nodup) {x y : String × β}
    (hx : x ∈ l) (hy : y ∈ l) (hxy : x.1 = y.1) : x = y := by
  induction l with
  | nil => cases hx
  | cons p t ih =>
    rw [List.map_cons, List.nodup_cons] at hnd
    rcases List.mem_cons.1 hx with hx1 | hx1 <;> rcases List.mem_cons.1 hy with hy1 | hy1
    · rw [hx1, hy1]
    · exact absurd (List.mem_map.2 ⟨y, hy1, (hxy ▸ hx1 ▸ rfl : y.1 = p.1)⟩) hnd.1
    · exact absurd (List.mem_map.2 ⟨x, hx1, (hxy ▸ hy1 ▸ rfl : x.1 = p.1)⟩) hnd.1
    · exact ih hnd.2 hx1 hy1

/-- Indexing a `flatMap` that produces two entries per element. -/
theorem flatMap_pair_getElem {α β : Type} (f g : α → β) (l : List α) (i : ℕ) :
    (l.flatMap (fun x => [f x, g x]))[2 * i]? = (l[i]?).map f ∧
    (l.flatMap (fun x => [f x, g x]))[2 * i + 1]? = (l[i]?).map g := by
  induction l generalizing i with
  | nil => simp
  | cons x t ih =>
    cases i with
    | zero => simp
    | succ j =>
      have h2 : 2 * (j + 1) = 2 * j + 1 + 1 := by ring
      have hc : (x :: t).flatMap (fun x => [f x, g x]) =
          f x :: g x :: t.flatMap (fun x => [f x, g x]) := rfl
      rw [hc, h2]
      exact ⟨by rw [List.getElem?_cons_succ, List.getElem?_cons_succ, (ih j).1,
          List.getElem?_cons_succ],
        by rw [List.getElem?_cons_succ, List.getElem?_cons_succ, (ih j).2,
          List.getElem?_cons_succ]⟩

/-- Length of a `flatMap` whose blocks all have the same length. -/
theorem flatMap_length_const {α β : Type} (f : α → List β) (n : ℕ)
    (h : ∀ x, (f x).length = n) (l : List α) :
    (l.flatMap f).length = n * l.length := by
  induction l with
  | nil => simp
  | cons x t ih =>
    have hc : (x :: t).flatMap f = f x ++ t.flatMap f := rfl
    rw [hc, List.length_append, h x, ih, List.length_cons, Nat.mul_succ, Nat.add_comm]

/-- Length of the concatenation of `k` copies of a block. -/
theorem flatten_replicate_length {α : Type} (k : ℕ) (b : List α) :
    ((List.replicate k b).flatten).length = k * b.length := by
  rw [List.length_flatten, List.map_replicate, List.sum_replicate, smul_eq_mul]

/-- `step` does not touch `self.vars`. -/
theorem stepEnv_vars (a : ℕ) (inp : SimInput) (s : REnvState) :
    (stepEnv a inp s).1.vars = s.vars := rfl

/-- Unfolding one step of an episode fragment. -/
theorem runSteps_cons (s : REnvState) (p : ℕ × SimInput) (t : List (ℕ × SimInput)) :
    runSteps s (p :: t) = runSteps (stepEnv p.1 p.2 s).1 t := rfl

theorem runSteps_vars (s : REnvState) (l : List (ℕ × SimInput)) :
    (runSteps s l).vars = s.vars := by
  induction l generalizing s with
  | nil => rfl
  | cons p t ih => rw [runSteps_cons, ih, stepEnv_vars]

/-- After one step the arrival flag is the old flag OR-ed with this
step's arrival test. -/
theorem stepEnv_arrived (a : ℕ) (inp : SimInput) (s : REnvState) :
    (stepEnv a inp s).1.egoArrived = (arrivalObserved s.vars inp || s.egoArrived) := by
  by_cases h : obsEgoPosFirst (getObs s.vars inp.newStateDict) < destinationX <;>
    simp [stepEnv, arrivalObserved, h]

/-- The arrival flag accumulated over an episode fragment. -/
theorem runSteps_arrived (s : REnvState) (l : List (ℕ × SimInput)) :
    (runSteps s l).egoArrived =
      (s.egoArrived || l.any (fun p => arrivalObserved s.vars p.2)) := by
  induction l generalizing s with
  | nil => simp [runSteps]
  | cons p t ih =>
    rw [runSteps_cons, ih, stepEnv_arrived, stepEnv_vars, List.any_cons]
    cases s.egoArrived <;> cases arrivalObserved s.vars p.2 <;> simp

/-- A sorted list whose strictly smallest element is `x` starts with `x`. -/
theorem sorted_head_of_unique_min {l : List (String × ℚ)} (hs : List.Sorted distLE l)
    {x : String × ℚ} (hx : x ∈ l) (hmin : ∀ y ∈ l, y ≠ x → x.2 < y.2) :
    ∃ t, l = x :: t := by
  cases l with
  | nil => cases hx
  | cons y t =>
    by_cases hyx : y = x
    · exact ⟨t, by rw [hyx]⟩
    · exfalso
      have hx' : x ∈ t := by
        rcases List.mem_cons.1 hx with h | h
        · exact absurd h.symm hyx
        · exact h
      have h1 : x.2 < y.2 := hmin y (List.mem_cons_self y t) hyx
      have h2 : distLE y x := (List.sorted_cons.1 hs).1 x hx'
      exact absurd h2 (not_le.2 h1)

/-- One step's `terminated` in terms of the current collision list, the
current arrival test and the accumulated arrival flag. -/
theorem stepEnv_terminated (a : ℕ) (inp : SimInput) (s : REnvState) :
    (stepEnv a inp s).2.terminated =
      (decide ("ego" ∈ inp.collidingIDs) || (arrivalObserved s.vars inp || s.egoArrived)) := by
  by_cases h : obsEgoPosFirst (getObs s.vars inp.newStateDict) < destinationX <;>
    simp [stepEnv, arrivalObserved, h]

/-- Claim C1 is false as stated: the observation's keys are not fixed to
the six declared ones regardless of the subscription contents — a
successful `step` whose subscription results hold a fourth vehicle
returns eight keys — and in the nominal three-vehicle state the
`ego_pos` entry is a length-1 array (it holds the value of
`self.vars[0]`, the speed, the first subscribed variable), not the
length-2 array the observation space declares. -/
theorem obs_six_keys_counterexample :
    hasAllVehicles exQuadInput ∧
    ((stepEnv 0 exQuadInput (resetEnv exQuadInput exState).1).2.obs).length = 8 ∧
    ¬ ((stepEnv 0 exQuadInput (resetEnv exQuadInput exState).1).2.obs).length = 6 ∧
    (((stepEnv 0 exInput (resetEnv exInput exState).1).2.obs.lookup "ego_pos").getD
      []).length = 1 ∧
    ¬ (((stepEnv 0 exInput (resetEnv exInput exState).1).2.obs.lookup "ego_pos").getD
      []).length = 2 := by
  decide

/-- Claim C1 (amended): the observation returned by `reset` and `step`
is `_get_obs()` of the current subscription results, and it holds, for
each vehicle id `v` present there (in dictionary order), exactly the two
keys `v_pos` and `v_speed`; the `v_pos` entry is the value of the FIRST
subscribed variable (the length-1 speed) and the `v_speed` entry the
value of the SECOND (the length-2 position) — swapped relative to the
declared observation space.  The key list equals the six declared keys
exactly when the subscription results list exactly the vehicles
`ego`, `t_0`, `t_1`. -/
theorem obs_keys_and_shapes (sd : List (String × VehRecord)) :
    ((getObs (varsOfStateDict sd) sd).map Prod.fst =
      sd.flatMap (fun p => [p.1 ++ "_pos", p.1 ++ "_speed"])) ∧
    (∀ i : ℕ,
      (getObs (varsOfStateDict sd) sd)[2 * i]? =
        (sd[i]?).map (fun p => (p.1 ++ "_pos", [p.2.speed])) ∧
      (getObs (varsOfStateDict sd) sd)[2 * i + 1]? =
        (sd[i]?).map (fun p => (p.1 ++ "_speed", [p.2.posX, p.2.posY]))) ∧
    (sd.map Prod.fst = ["ego", "t_0", "t_1"] →
      (getObs (varsOfStateDict sd) sd).map Prod.fst =
        ["ego_pos", "ego_speed", "t_0_pos", "t_0_speed", "t_1_pos", "t_1_speed"]) ∧
    (∀ (a : ℕ) (inp : SimInput) (s : REnvState),
      (stepEnv a inp s).2.obs = getObs s.vars inp.newStateDict) ∧
    (∀ (inp : SimInput) (s : REnvState),
      (resetEnv inp s).2.1 = getObs (varsOfStateDict inp.newStateDict) inp.newStateDict) := by
  have hobs : getObs (varsOfStateDict sd) sd =
      sd.flatMap (fun p =>
        [(p.1 ++ "_pos", [p.2.speed]), (p.1 ++ "_speed", [p.2.posX, p.2.posY])]) := rfl
  have hkeys : (getObs (varsOfStateDict sd) sd).map Prod.fst =
      sd.flatMap (fun p => [p.1 ++ "_pos", p.1 ++ "_speed"]) := by
    rw [hobs, List.map_flatMap]
    simp
  refine ⟨hkeys, ?_, ?_, fun a inp s => rfl, fun inp s => rfl⟩
  · intro i
    rw [hobs]
    exact flatMap_pair_getElem (fun p => (p.1 ++ "_pos", [p.2.speed]))
      (fun p => (p.1 ++ "_speed", [p.2.posX, p.2.posY])) sd i
  · intro hk
    rw [hkeys, ← List.flatMap_map (Prod.fst (β := VehRecord))
      (fun v => [v ++ "_pos", v ++ "_speed"]) sd, hk]
    rfl

/-- Claim C1 witness: the amended statement evaluated on the nominal
three-vehicle subscription results. -/
theorem obs_keys_and_shapes_witness :
    exStateDict.map Prod.fst = ["ego", "t_0", "t_1"] ∧
    (getObs (varsOfStateDict exStateDict) exStateDict).map Prod.fst =
      ["ego_pos", "ego_speed", "t_0_pos", "t_0_speed", "t_1_pos", "t_1_speed"] :=
  ⟨by decide, (obs_keys_and_shapes exStateDict).2.2.1 (by decide)⟩

/-- Claim C2: the lifecycle around the reset counter — construction
leaves the counter at 0; `reset` closes the running simulator first
exactly when the counter is positive (i.e. on every reset but the
first), then starts a new connection; every `reset` increments the
counter by one (so it is 0 only before the first reset), and `step`
never changes it. -/
theorem lifecycle_reset_spec :
    (∀ (osEnv : List (String × String)) (p : InitParams) (st : REnvState),
      (initEnv osEnv p).outcome = Except.ok st → st.resetCounter = 0) ∧
    (∀ s : REnvState, TraciCall.close ∈ resetCalls s ↔ 0 < s.resetCounter) ∧
    (∀ s : REnvState, s.resetCounter = 0 →
      resetCalls s = [TraciCall.start s.sumoCmd, TraciCall.subscribeContext,
        TraciCall.setSpeedMode, TraciCall.simulationStep, TraciCall.saveState,
        TraciCall.getSubscription]) ∧
    (∀ s : REnvState, 0 < s.resetCounter →
      resetCalls s = [TraciCall.close, TraciCall.start s.sumoCmd,
        TraciCall.subscribeContext, TraciCall.setSpeedMode, TraciCall.simulationStep,
        TraciCall.saveState, TraciCall.getSubscription]) ∧
    (∀ (inp : SimInput) (s : REnvState),
      (resetEnv inp s).1.resetCounter = s.resetCounter + 1) ∧
    (∀ (inp : SimInput) (s : REnvState), 0 < (resetEnv inp s).1.resetCounter) ∧
    (∀ (a : ℕ) (inp : SimInput) (s : REnvState),
      (stepEnv a inp s).1.resetCounter = s.resetCounter) := by
  refine ⟨?_, ?_, ?_, ?_, fun inp s => rfl, fun inp s => Nat.succ_pos _,
    fun a inp s => rfl⟩
  · intro osEnv p st h
    unfold initEnv at h
    split at h
    · split at h
      · injection h with h
        rw [← h]
      · exact Except.noConfusion h
    · exact Except.noConfusion h
  · intro s
    unfold resetCalls
    by_cases h : 0 < s.resetCounter <;> simp [h]
  · intro s h
    unfold resetCalls
    rw [if_neg (by omega)]
    rfl
  · intro s h
    unfold resetCalls
    rw [if_pos h]
    rfl

/-- Claim C2 witness: constructing with `SUMO_HOME` set yields counter
0, the second reset closes the old connection, and a reset increments
the counter. -/
theorem lifecycle_reset_spec_witness :
    (∃ st, (initEnv exOsEnv exParams).outcome = Except.ok st ∧ st.resetCounter = 0) ∧
    (resetEnv exInput exState).1.resetCounter = 1 ∧
    TraciCall.close ∈ resetCalls (resetEnv exInput exState).1 := by
  refine ⟨⟨_, rfl, lifecycle_reset_spec.1 exOsEnv exParams _ rfl⟩,
    lifecycle_reset_spec.2.2.2.2.1 exInput exState,
    (lifecycle_reset_spec.2.1 _).mpr (by decide)⟩

/-- Claim C3: every `step` increments the step counter by exactly one,
the returned `truncated` flag is true exactly when the incremented
counter has reached `max_steps`, and `reset` zeroes the counter. -/
theorem step_counter_spec (a : ℕ) (inp : SimInput) (s : REnvState)
    (h : hasAllVehicles inp) :
    (stepEnv a inp s).1.stepCount = s.stepCount + 1 ∧
    ((stepEnv a inp s).2.truncated = true ↔ s.maxSteps ≤ s.stepCount + 1) ∧
    (resetEnv inp s).1.stepCount = 0 :=
  ⟨rfl, by simp [stepEnv], rfl⟩

/-- Claim C3 witness. -/
theorem step_counter_spec_witness :
    hasAllVehicles exInput ∧
    (stepEnv 0 exInput exState).1.stepCount = 1 ∧
    (resetEnv exInput exState).1.stepCount = 0 :=
  ⟨by decide, (step_counter_spec 0 exInput exState (by decide)).1,
    (step_counter_spec 0 exInput exState (by decide)).2.2⟩

/-- Claim C4: the `terminated` flag returned by a step taken after a
reset and an episode fragment is true exactly when the ego vehicle is in
the current colliding-vehicles list, or the arrival test held at the
current step or at some earlier step of the episode; `reset` clears both
flags, and the arrival flag is sticky across steps. -/
theorem step_terminated_spec (s0 : REnvState) (inp0 : SimInput)
    (l : List (ℕ × SimInput)) (a : ℕ) (inp : SimInput)
    (h0 : hasAllVehicles inp0) (hl : ∀ p ∈ l, hasAllVehicles p.2)
    (h : hasAllVehicles inp) :
    ((stepEnv a inp (runSteps (resetEnv inp0 s0).1 l)).2.terminated = true ↔
      ("ego" ∈ inp.collidingIDs ∨
        arrivalObserved (varsOfStateDict inp0.newStateDict) inp = true ∨
        ∃ p ∈ l, arrivalObserved (varsOfStateDict inp0.newStateDict) p.2 = true)) ∧
    (resetEnv inp0 s0).1.egoCollided = false ∧
    (resetEnv inp0 s0).1.egoArrived = false ∧
    (∀ (a2 : ℕ) (inp2 : SimInput) (s2 : REnvState),
      s2.egoArrived = true → (stepEnv a2 inp2 s2).1.egoArrived = true) := by
  refine ⟨?_, rfl, rfl, ?_⟩
  · rw [stepEnv_terminated, runSteps_vars, runSteps_arrived]
    have hva : (resetEnv inp0 s0).1.vars = varsOfStateDict inp0.newStateDict := rfl
    have hfa : (resetEnv inp0 s0).1.egoArrived = false := rfl
    rw [hva, hfa]
    simp [List.any_eq_true]
  · intro a2 inp2 s2 h2
    rw [stepEnv_arrived, h2, Bool.or_true]

/-- Claim C4 witness: an episode of one non-event step followed by a
collision step terminates. -/
theorem step_terminated_spec_witness :
    hasAllVehicles exInputColl ∧
    (stepEnv 0 exInputColl
      (runSteps (resetEnv exInput exState).1 [(0, exInput)])).2.terminated = true := by
  refine ⟨by decide, ?_⟩
  exact (step_terminated_spec exState exInput [(0, exInput)] 0 exInputColl
    (by decide) (by decide) (by decide)).1.mpr (Or.inl (by decide))

/-- Claim C5: the reward returned by `step` is 1 if the first component
of the observation's `ego_pos` entry is below `destination_x = -52`,
otherwise -1 if the ego vehicle is in the colliding-vehicles list,
otherwise 0; when arrival and collision hold together the reward is 1. -/
theorem step_reward_spec (a : ℕ) (inp : SimInput) (s : REnvState)
    (h : hasAllVehicles inp) :
    ((stepEnv a inp s).2.reward =
      if obsEgoPosFirst (getObs s.vars inp.newStateDict) < destinationX then 1
      else if "ego" ∈ inp.collidingIDs then -1 else 0) ∧
    (obsEgoPosFirst (getObs s.vars inp.newStateDict) < destinationX →
      "ego" ∈ inp.collidingIDs → (stepEnv a inp s).2.reward = 1) := by
  constructor
  · by_cases h1 : obsEgoPosFirst (getObs s.vars inp.newStateDict) < destinationX <;>
      by_cases h2 : "ego" ∈ inp.collidingIDs <;> simp [stepEnv, h1, h2]
  · intro h1 h2
    simp [stepEnv, h1]

/-- Claim C5 witness: a colliding, non-arrived step rewards -1. -/
theorem step_reward_spec_witness :
    hasAllVehicles exInputColl ∧
    ((stepEnv 0 exInputColl exState).2.reward =
      if obsEgoPosFirst (getObs exState.vars exInputColl.newStateDict) < destinationX then 1
      else if "ego" ∈ exInputColl.collidingIDs then -1 else 0) ∧
    (stepEnv 0 exInputColl exState).2.reward = -1 :=
  ⟨by decide, (step_reward_spec 0 exInputColl exState (by decide)).1, by decide⟩

/-- Claim C6: for `0 ≤ a < num_actions` and `num_actions ≥ 2`, `_act`
commands the ego speed `np.linspace(0, max_ego_speed, num_actions)[a]`,
which is the `a`-th of `num_actions` evenly spaced values, i.e.
`a * max_ego_speed / (num_actions - 1)`; in particular action 0 commands
speed 0 and action `num_actions - 1` commands `max_ego_speed`. -/
theorem act_linspace_spec (s : REnvState) (a : ℕ)
    (h2 : 2 ≤ s.numActions) (ha : a < s.numActions) :
    actCmd s a = a * s.maxEgoSpeed / ((s.numActions : ℚ) - 1) ∧
    actCalls s a = [TraciCall.setSpeed (a * s.maxEgoSpeed / ((s.numActions : ℚ) - 1))] ∧
    (a = 0 → actCmd s a = 0) ∧
    (a = s.numActions - 1 → actCmd s a = s.maxEgoSpeed) := by
  have hn1 : ¬ s.numActions ≤ 1 := by omega
  have hmain : actCmd s a = a * s.maxEgoSpeed / ((s.numActions : ℚ) - 1) := by
    unfold actCmd npLinspace
    rw [List.getD_eq_getElem?_getD, List.getElem?_map, List.getElem?_range ha]
    simp only [Option.map_some', Option.getD_some, if_neg hn1]
    ring
  refine ⟨hmain, by rw [actCalls, hmain], ?_, ?_⟩
  · intro h0
    rw [hmain, h0]
    simp
  · intro hlast
    have hne : ((s.numActions : ℚ) - 1) ≠ 0 := by
      have h2q : (2 : ℚ) ≤ (s.numActions : ℚ) := by exact_mod_cast h2
      linarith
    rw [hmain, hlast]
    rw [Nat.cast_sub (by omega : 1 ≤ s.numActions)]
    push_cast
    field_simp

/-- Claim C6 witness: with 2 actions and max speed 10, action 1 (the
last) commands the maximum speed. -/
theorem act_linspace_spec_witness :
    2 ≤ exState.numActions ∧ actCmd exState 1 = exState.maxEgoSpeed :=
  ⟨by decide, (act_linspace_spec exState 1 (by decide) (by decide)).2.2.2 (by decide)⟩

/-- Claim C7, evaluated on the failing input `exStateDict` (ego at
position (0,0) with speed 5, `t_0` at position (3,4) with the same
speed 5): `_get_info` reads `pos_key = self.vars[0]`, the FIRST
subscribed variable, which is the speed — so the reported
`ego_t0_dist` is `|speed(ego) - speed(t_0)| = 0`, while the Euclidean
distance between the two reported 2-D positions is 5.  The last
conjunct shows this holds for every pair of records, not just this
input. -/
theorem info_dist_from_speed :
    (getInfo false (varsOfStateDict exStateDict) exStateDict).egoT0Dist = 0 ∧
    npNorm (listSub [(0 : ℚ), 0] [3, 4]) = 5 ∧
    ((0 : ℝ) ≠ 5) ∧
    (∀ (e t0 : VehRecord) (rest : List (String × VehRecord)),
      (getInfo false (varsOfStateDict (("ego", e) :: ("t_0", t0) :: rest))
          (("ego", e) :: ("t_0", t0) :: rest)).egoT0Dist =
        |((e.speed - t0.speed : ℚ) : ℝ)|) := by
  refine ⟨?_, ?_, by norm_num, ?_⟩
  · have h1 : (getInfo false (varsOfStateDict exStateDict) exStateDict).egoT0Dist =
        npNorm [(5 : ℚ) - 5] := rfl
    rw [h1, show (5 : ℚ) - 5 = 0 by norm_num, npNorm_singleton]
    simp
  · have h2 : npNormSq (listSub [(0 : ℚ), 0] [3, 4]) = 25 := by
      norm_num [npNormSq, listSub]
    rw [npNorm, h2, show ((25 : ℚ) : ℝ) = (5 : ℝ) ^ 2 by norm_num]
    exact Real.sqrt_sq (by norm_num)
  · intro e t0 rest
    have h3 : (getInfo false (varsOfStateDict (("ego", e) :: ("t_0", t0) :: rest))
        (("ego", e) :: ("t_0", t0) :: rest)).egoT0Dist =
        npNorm [e.speed - t0.speed] := rfl
    rw [h3, npNorm_singleton]

/-- Claim C8 counterexample: from a standing start (speed 0, no pending
command), a `step` with action 1 pushes the command 10 but the
observation of that same call still reports speed 0 — the pushed
command has NOT taken effect in the returned tuple; it first shows up
in the next call's observation. -/
theorem step_effect_counterexample :
    actCmd exState 1 = 10 ∧
    (((stepWithSim 1 exState exMiniSim).1.1.stateDict.lookup "ego").map
      VehRecord.speed = some 0) ∧
    ((0 : ℚ) ≠ 10) ∧
    (((stepWithSim 0 (stepWithSim 1 exState exMiniSim).1.1
        (stepWithSim 1 exState exMiniSim).2).1.1.stateDict.lookup "ego").map
      VehRecord.speed = some 10) := by
  have hc : actCmd exState 1 = 10 := by
    show (0 : ℚ) + ((1 : ℕ) : ℚ) * ((10 : ℚ) - 0) / (((2 : ℕ) : ℚ) - 1) = 10
    push_cast
    norm_num
  refine ⟨hc, rfl, by norm_num, ?_⟩
  have h4 : (((stepWithSim 0 (stepWithSim 1 exState exMiniSim).1.1
      (stepWithSim 1 exState exMiniSim).2).1.1.stateDict.lookup "ego").map
      VehRecord.speed) = some (actCmd exState 1) := rfl
  rw [h4, hc]

/-- Claim C8 (amended): each `step` issues the fixed remote-call
sequence `simulationStep`, then the speed-command push for the given
action, then the subscription pull; but the subscription pulled in the
same call reflects the simulator state advanced at the START of the
call, in which the PREVIOUS call's speed command has taken effect — the
command pushed by this call first appears in the next call's pulled
state. -/
theorem step_call_order_spec (a : ℕ) (s : REnvState) (w : MiniSim) :
    stepCalls s a = [TraciCall.simulationStep, TraciCall.setSpeed (actCmd s a),
      TraciCall.getSubscription] ∧
    (((stepWithSim a s w).1.1.stateDict.lookup "ego").map VehRecord.speed =
      some (w.cmd.getD w.egoSpeed)) ∧
    ((stepWithSim a s w).2.cmd = some (actCmd s a)) ∧
    (∀ (a2 : ℕ) (s2 : REnvState),
      ((stepWithSim a2 s2 (stepWithSim a s w).2).1.1.stateDict.lookup "ego").map
        VehRecord.speed = some (actCmd s a)) :=
  ⟨rfl, rfl, rfl, fun _ _ => rfl⟩

/-- Claim C9 counterexample: with `SUMO_HOME` unset, construction does
raise `NameError` — but the instance field `_max_ego_speed` has already
been assigned by `RoundaboutEnv.__init__` (roundabout.py line 68 runs
before `super().__init__` reaches the check), so the claim's "no
instance field is assigned (the constructor has no effect on the
instance)" is false. -/
theorem init_field_assigned_counterexample :
    (initEnv [] exParams).outcome =
      Except.error
        (InitError.nameError "[sumo_gym] Please declare environment variable SUMO_HOME") ∧
    (initEnv [] exParams).maxEgoSpeedAssigned = some 10 ∧
    ¬ (initEnv [] exParams).maxEgoSpeedAssigned = none :=
  ⟨rfl, rfl, by decide⟩

/-- Claim C9 (amended): constructing any `RoundaboutEnv` (the only
concrete `BaseSumoGymEnv`) raises `NameError` if and only if
`SUMO_HOME` is absent from the process environment; when it raises, the
subclass has already assigned `_max_ego_speed` (roundabout.py line 68),
but none of the base-class attributes are assigned and no simulator
command line is built (base.py lines 71-77 precede lines 79-109); when
`SUMO_HOME` is present no `NameError` is raised, and construction
succeeds whenever the positive-action-count assertion of
`spaces.Discrete` also passes. -/
theorem init_sumo_home_spec (osEnv : List (String × String)) (p : InitParams) :
    ((∃ e, (initEnv osEnv p).outcome = Except.error (InitError.nameError e)) ↔
      osEnv.lookup "SUMO_HOME" = none) ∧
    (osEnv.lookup "SUMO_HOME" = none →
      (initEnv osEnv p).outcome =
        Except.error
          (InitError.nameError "[sumo_gym] Please declare environment variable SUMO_HOME") ∧
      (initEnv osEnv p).maxEgoSpeedAssigned = some p.maxEgoSpeed ∧
      (initEnv osEnv p).baseFieldsAssigned = false ∧
      (initEnv osEnv p).sumoCmdBuilt = none) ∧
    ((osEnv.lookup "SUMO_HOME").isSome → 0 < p.numActions →
      ∃ st, (initEnv osEnv p).outcome = Except.ok st) := by
  by_cases h : (osEnv.lookup "SUMO_HOME").isSome
  · have hn : ¬ osEnv.lookup "SUMO_HOME" = none := Option.isSome_iff_ne_none.mp h
    refine ⟨⟨?_, fun hnone => absurd hnone hn⟩, fun hnone => absurd hnone hn,
      fun _ hpos => ⟨_, by rw [initEnv, if_pos h, if_pos hpos]⟩⟩
    rintro ⟨e, he⟩
    by_cases hpos : 0 < p.numActions
    · rw [initEnv, if_pos h, if_pos hpos] at he
      exact Except.noConfusion he
    · rw [initEnv, if_pos h, if_neg hpos] at he
      injection he with he
      exact InitError.noConfusion he
  · have hnone : osEnv.lookup "SUMO_HOME" = none :=
      Option.not_isSome_iff_eq_none.mp h
    refine ⟨⟨fun _ => hnone, fun _ => ⟨_, by rw [initEnv, if_neg h]⟩⟩,
      fun _ => ?_, fun hs => absurd hs h⟩
    rw [initEnv, if_neg h]
    exact ⟨rfl, rfl, rfl, rfl⟩

/-- Claim C9 witness: construction on an empty environment raises the
`NameError` with `_max_ego_speed` already assigned and no base fields;
with `SUMO_HOME` set and 2 actions it succeeds. -/
theorem init_sumo_home_spec_witness :
    ([] : List (String × String)).lookup "SUMO_HOME" = none ∧
    (initEnv [] exParams).outcome =
      Except.error
        (InitError.nameError "[sumo_gym] Please declare environment variable SUMO_HOME") ∧
    (initEnv [] exParams).baseFieldsAssigned = false ∧
    (initEnv [] exParams).sumoCmdBuilt = none ∧
    (∃ st, (initEnv exOsEnv exParams).outcome = Except.ok st) :=
  ⟨rfl, ((init_sumo_home_spec [] exParams).2.1 rfl).1,
    ((init_sumo_home_spec [] exParams).2.1 rfl).2.2.1,
    ((init_sumo_home_spec [] exParams).2.1 rfl).2.2.2,
    (init_sumo_home_spec exOsEnv exParams).2.2 (by decide) (by decide)⟩

/-- Claim C10 counterexample: with `n_veh = 1` and three vehicles —
`a` far away at (100,100) but with the ego's exact speed, `b` spatially
nearest at (1,0) but with a different speed — `construct_state` keeps
`ego` and `a`, not the spatially nearest `b`: the sort key is the norm
of the difference of `self.vars[0]` values, i.e. of the SPEEDS, not the
Euclidean distance between positions (second conjunct: `b` is strictly
nearer to the ego than `a` in position space). -/
theorem construct_state_counterexample :
    construct_state 1 cexSd = some [10, 0, 0, 0, 10, 0, 100, 100] ∧
    npNormSq (listSub [(1 : ℚ), 0] [0, 0]) < npNormSq (listSub [(100 : ℚ), 100] [0, 0]) := by
  constructor
  · norm_num [construct_state, cexSd, cexEgo, cexA, cexB, distSqVal, sumoValueAt,
      sumoEntries, sumoVars, VAR_SPEED, VAR_ANGLE, VAR_POSITION, npNormSq, listSub,
      List.insertionSort, List.orderedInsert, distLE, flattenRec, List.lookup]
    decide
  · norm_num [npNormSq, listSub]

/-- Claim C10 (amended): for every subscription dictionary whose
records carry the 4 scalars (speed, angle, 2-D position) and which
contains the ego vehicle (keys distinct, as in a Python dict),
`construct_state` stores a flat vector of exactly `4 * (n_veh + 1)`
entries.  When more than `n_veh` other vehicles are in context it keeps
the first `n_veh + 1` vehicles of the stable sort by the norm of the
difference between the vehicle's and the ego's FIRST context variable
(the speed, under the standard key order; dictionary order breaks
ties), in nondecreasing order of that norm (stated via the squared
norm, which `npNorm_le_npNorm_iff` shows orders identically); the ego,
whose key is 0, is among them whenever no other vehicle has the ego's
exact speed.  When fewer, the records are concatenated in dictionary
order and exactly `n_veh - context_len` dummy blocks `[0,0,10000,10000]`
are appended; when equal, the records are concatenated with no dummy. -/
theorem construct_state_spec (n_veh : ℕ) (sd : List (String × SumoRec)) (ego : SumoRec)
    (hego : sd.lookup "ego" = some ego) (hnd : (sd.map Prod.fst).Nodup) :
    ∃ s, construct_state n_veh sd = some s ∧
      s.length = 4 * (n_veh + 1) ∧
      (n_veh < sd.length - 1 →
        (s = ((((List.insertionSort distLE
              (sd.map (fun p => (p.1, distSqVal ego p.2)))).map Prod.fst).take
                (n_veh + 1)).flatMap
            (fun v => flattenRec ((sd.lookup v).getD default))) ∧
          List.Sorted (fun x y : ℚ => x ≤ y)
            (((List.insertionSort distLE
                (sd.map (fun p => (p.1, distSqVal ego p.2)))).take (n_veh + 1)).map
              Prod.snd) ∧
          ((∀ p ∈ sd, p.1 ≠ "ego" → distSqVal ego p.2 ≠ 0) →
            "ego" ∈ (((List.insertionSort distLE
                (sd.map (fun p => (p.1, distSqVal ego p.2)))).map Prod.fst).take
                  (n_veh + 1))))) ∧
      (sd.length - 1 < n_veh →
        s = sd.flatMap (fun p => flattenRec p.2) ++
          (List.replicate (n_veh - (sd.length - 1)) dummyState).flatten) ∧
      (sd.length - 1 = n_veh → s = sd.flatMap (fun p => flattenRec p.2)) := by
  have hmem : ("ego", ego) ∈ sd := lookup_mem hego
  have hlen1 : 1 ≤ sd.length := List.length_pos.2 (List.ne_nil_of_mem hmem)
  by_cases hbig : n_veh < sd.length - 1
  · set distances := sd.map (fun p => (p.1, distSqVal ego p.2)) with hdist
    set l' := List.insertionSort distLE distances with hl'
    set kept := (l'.map Prod.fst).take (n_veh + 1) with hkept
    have hcs : construct_state n_veh sd =
        some (kept.flatMap (fun v => flattenRec ((sd.lookup v).getD default))) := by
      simp only [construct_state, hego]
      rw [if_pos hbig]
    have hl'len : l'.length = sd.length := by
      rw [hl', (List.perm_insertionSort distLE distances).length_eq, hdist,
        List.length_map]
    have hkeptlen : kept.length = n_veh + 1 := by
      rw [hkept, List.length_take, List.length_map, hl'len, min_eq_left (by omega)]
    have hsorted : List.Sorted distLE l' := List.sorted_insertionSort distLE distances
    refine ⟨_, hcs, ?_, ?_, ?_, ?_⟩
    · rw [flatMap_length_const (fun v => flattenRec ((sd.lookup v).getD default)) 4
        (fun v => rfl) kept, hkeptlen]
    · intro _
      refine ⟨rfl, ?_, ?_⟩
      · exact List.Pairwise.map Prod.snd (fun a b h => h)
          (List.Pairwise.sublist (List.take_sublist _ _) hsorted)
      · intro hzero
        have hzero0 : distSqVal ego ego = 0 := by
          simp [distSqVal, sumoValueAt, sumoEntries, sumoVars, VAR_SPEED, listSub,
            npNormSq, List.lookup]
        have hin : ("ego", (0 : ℚ)) ∈ distances := by
          rw [hdist]
          exact List.mem_map.2 ⟨("ego", ego), hmem, by rw [hzero0]⟩
        have hin' : ("ego", (0 : ℚ)) ∈ l' :=
          (List.perm_insertionSort distLE distances).mem_iff.2 hin
        have hmin : ∀ y ∈ l', y ≠ (("ego", (0 : ℚ)) : String × ℚ) →
            (("ego", (0 : ℚ)) : String × ℚ).2 < y.2 := by
          intro y hy hne
          have hyd : y ∈ distances :=
            (List.perm_insertionSort distLE distances).mem_iff.1 hy
          rw [hdist] at hyd
          rcases List.mem_map.1 hyd with ⟨p, hp, hpy⟩
          by_cases hkey : p.1 = "ego"
          · exfalso
            have hpe : p = ("ego", ego) := eq_of_mem_of_nodup_keys hnd hp hmem hkey
            apply hne
            rw [← hpy, hpe, hzero0]
          · have h1 : distSqVal ego p.2 ≠ 0 := hzero p hp hkey
            have h2 : 0 ≤ distSqVal ego p.2 := npNormSq_nonneg _
            have h3 : 0 < distSqVal ego p.2 := lt_of_le_of_ne h2 (Ne.symm h1)
            rw [← hpy]
            exact h3
        obtain ⟨t, ht⟩ := sorted_head_of_unique_min hsorted hin' hmin
        rw [hkept, ht]
        have hmapc : ((("ego", (0 : ℚ)) : String × ℚ) :: t).map Prod.fst =
            "ego" :: t.map Prod.fst := rfl
        rw [hmapc, List.take_succ_cons]
        exact List.mem_cons_self _ _
    · intro hsmall
      exact absurd hsmall (by omega)
    · intro heq
      exact absurd heq (by omega)
  · by_cases hsmall : sd.length - 1 < n_veh
    · have hcs : construct_state n_veh sd =
          some (sd.flatMap (fun p => flattenRec p.2) ++
            (List.replicate (n_veh - (sd.length - 1)) dummyState).flatten) := by
        simp only [construct_state]
        rw [if_neg (by omega), if_pos hsmall]
      refine ⟨_, hcs, ?_, fun h => absurd h (by omega), fun _ => rfl,
        fun h => absurd h (by omega)⟩
      rw [List.length_append,
        flatMap_length_const (fun p => flattenRec p.2) 4 (fun p => rfl) sd,
        flatten_replicate_length, show dummyState.length = 4 from rfl]
      omega
    · have hcs : construct_state n_veh sd =
          some (sd.flatMap (fun p => flattenRec p.2)) := by
        simp only [construct_state]
        rw [if_neg (by omega), if_neg (by omega)]
      refine ⟨_, hcs, ?_, fun h => absurd h (by omega),
        fun h => absurd h (by omega), fun _ => rfl⟩
      rw [flatMap_length_const (fun p => flattenRec p.2) 4 (fun p => rfl) sd]
      omega

/-- Claim C10 witness: the amended statement instantiated on the
counterexample dictionary. -/
theorem construct_state_spec_witness :
    cexSd.lookup "ego" = some cexEgo ∧
    (∃ s, construct_state 1 cexSd = some s ∧ s.length = 4 * (1 + 1)) := by
  refine ⟨rfl, ?_⟩
  obtain ⟨s, h1, h2, _⟩ := construct_state_spec 1 cexSd cexEgo rfl (by decide)
  exact ⟨s, h1, h2⟩
